import Mathlib

/-!
Verification development for the adf-guardian rule-evaluation engine.

The engine validates JSON artifacts against declarative rules: each rule
optionally gates on a precondition ("when"), resolves a JSONPath target,
and checks every located value with a named guard predicate, producing
Violations for failing nodes.

Embedding notes:
* JSON values (serde_json::Value) are the inductive `Value`. JSON numbers
  are embedded as integers (`Int`); no claim settled here depends on
  float-specific behavior, only on numeric comparison and on the
  numeric/non-numeric type distinction.
* The path-query resolver (serde_json_path) is an external capability:
  `JsonPath::parse` followed by `query` is abstracted as a parameter
  `parsePath : String → Option (Value → List Value)`, where `none` models a
  ParseError and a parsed path is identified with the query function it
  denotes (ordered node list per document).
* The regex engine (`Regex::new` / `is_match`) is likewise abstracted as
  `compile : String → Option (String → Bool)`, `none` modelling an invalid
  pattern.
* `eprintln!` warnings are modelled where a claim needs them: `check_guard`
  returns its boolean together with the list of warning lines it prints.
-/

namespace AdfGuardian

/-- serde_json::Value. Objects are ordered association lists; numbers are
embedded as integers (see module comment). -/
inductive Value where
  | null
  | bool (b : Bool)
  | num (n : Int)
  | str (s : String)
  | arr (items : List Value)
  | obj (fields : List (String × Value))
deriving Repr

/-- `Value::get(key)`: field lookup on an object, `None` on any other shape. -/
def Value.get (v : Value) (key : String) : Option Value :=
  match v with
  | .obj fields => List.lookup key fields
  | _ => none

/-- `Value::as_str`. -/
def Value.asStr : Value → Option String
  | .str s => some s
  | _ => none

/-- `Value::as_bool`. -/
def Value.asBool : Value → Option Bool
  | .bool b => some b
  | _ => none

/-- `Value::as_f64`: every JSON number converts; any other shape is `None`.
Numbers are embedded as integers, so this returns the integer itself. -/
def Value.asF64 : Value → Option Int
  | .num n => some n
  | _ => none

/-- `Value::as_u64`: a number that is a non-negative integer; `None` otherwise. -/
def Value.asU64 : Value → Option Nat
  | .num n => if 0 ≤ n then some n.toNat else none
  | _ => none

/-- `Value::as_array`. -/
def Value.asArray : Value → Option (List Value)
  | .arr items => some items
  | _ => none

/-- `Value::is_null`. -/
def Value.isNull : Value → Bool
  | .null => true
  | _ => false

/-- Rust `Option::is_none_or`. -/
def optNoneOr (o : Option α) (p : α → Bool) : Bool :=
  match o with
  | none => true
  | some x => p x

/-- Lowercase an ASCII uppercase letter, identity elsewhere
(`u8::to_ascii_lowercase`, lifted to chars). -/
def asciiLowerChar (c : Char) : Char :=
  if 65 ≤ c.toNat ∧ c.toNat ≤ 90 then Char.ofNat (c.toNat + 32) else c

/-- Rust `str::eq_ignore_ascii_case`. The source compares UTF-8 byte
sequences after ASCII-lowercasing each byte; since only bytes below 0x80
(exactly the one-byte characters) are affected, this is equivalent to
comparing the character sequences after `asciiLowerChar`. -/
def eqIgnoreAsciiCase (a b : String) : Bool :=
  a.data.map asciiLowerChar == b.data.map asciiLowerChar

/-! ## Guard predicate library (src/engine/guards.rs) -/

/-- `guards::check_pattern_match`. `compile` abstracts `Regex::new` plus
`is_match` (none = invalid pattern). -/
def check_pattern_match (compile : String → Option (String → Bool))
    (node params : Value) : Bool :=
  let regexStr := (params.get "regex").bind Value.asStr
  let negative := ((params.get "negative").bind Value.asBool).getD false
  match node.asStr, regexStr with
  | some text, some pattern =>
    match compile pattern with
    | some isMatch =>
      if negative then !(isMatch text) else isMatch text
    | none => false
  | _, _ => false

/-- `guards::check_allowed_values`. -/
def check_allowed_values (node params : Value) : Bool :=
  let values := (params.get "values").bind Value.asArray
  let mode := ((params.get "mode").bind Value.asStr).getD "Allow"
  let caseSensitive := ((params.get "case_sensitive").bind Value.asBool).getD true
  match node.asStr, values with
  | some text, some list =>
    let found := list.any fun v =>
      match v.asStr with
      | some vStr => if caseSensitive then vStr == text else eqIgnoreAsciiCase vStr text
      | none => false
    if mode == "Deny" then !found else found
  | _, _ => false

/-- `guards::check_exists`. -/
def check_exists (node params : Value) : Bool :=
  let shouldExist := ((params.get "should_exist").bind Value.asBool).getD true
  if shouldExist then !node.isNull else node.isNull

/-- `guards::check_range`. -/
def check_range (node params : Value) : Bool :=
  let mn := (params.get "min").bind Value.asF64
  let mx := (params.get "max").bind Value.asF64
  match node.asF64 with
  | some val => optNoneOr mn (fun m => decide (m ≤ val)) && optNoneOr mx (fun m => decide (val ≤ m))
  | none => false

/-- `guards::check_count`. -/
def check_count (node params : Value) : Bool :=
  let mn := (params.get "min").bind Value.asU64
  let mx := (params.get "max").bind Value.asU64
  match node.asArray with
  | some items =>
    let len := items.length
    optNoneOr mn (fun m => decide (m ≤ len)) && optNoneOr mx (fun m => decide (len ≤ m))
  | none => false

/-- `guards::check_string_length`. Rust counts `s.chars().count()`:
Unicode scalar values, which is exactly `String.length` here. -/
def check_string_length (node params : Value) : Bool :=
  let mn := (params.get "min").bind Value.asU64
  let mx := (params.get "max").bind Value.asU64
  match node.asStr with
  | some s =>
    let len := s.length
    optNoneOr mn (fun m => decide (m ≤ len)) && optNoneOr mx (fun m => decide (len ≤ m))
  | none => false

/-! ## Value serialization (serde_json compact `to_string`) -/

/-- One hexadecimal digit, lowercase. -/
def hexDigit (n : Nat) : Char :=
  if n < 10 then Char.ofNat (48 + n) else Char.ofNat (87 + n)

/-- Escape one character as in the serde_json compact serializer:
quote and backslash escaped, the five shorthand control escapes, other
control characters below 0x20 as a hex escape, everything else verbatim. -/
def escapeJsonChar (c : Char) : String :=
  if c = '"' then "\\\""
  else if c = '\\' then "\\\\"
  else if c = '\n' then "\\n"
  else if c = '\r' then "\\r"
  else if c = '\t' then "\\t"
  else if c.toNat = 8 then "\\b"
  else if c.toNat = 12 then "\\f"
  else if c.toNat < 32 then
    "\\u00" ++ String.singleton (hexDigit (c.toNat / 16)) ++ String.singleton (hexDigit (c.toNat % 16))
  else String.singleton c

/-- Body of a serialized JSON string (without the surrounding quotes). -/
def escapeJson (s : String) : String :=
  String.join (s.data.map escapeJsonChar)

mutual

/-- `Value::to_string()`: the compact JSON serialization (no spaces,
strings quoted and escaped, object fields in stored order). -/
def Value.toJsonString : Value → String
  | .null => "null"
  | .bool true => "true"
  | .bool false => "false"
  | .num n => toString n
  | .str s => "\"" ++ escapeJson s ++ "\""
  | .arr items => "[" ++ String.intercalate "," (jsonStringList items) ++ "]"
  | .obj fields => "\x7b" ++ String.intercalate "," (jsonStringFields fields) ++ "\x7d"

/-- Serialize the elements of a JSON array. -/
def jsonStringList : List Value → List String
  | [] => []
  | v :: rest => v.toJsonString :: jsonStringList rest

/-- Serialize the fields of a JSON object. -/
def jsonStringFields : List (String × Value) → List String
  | [] => []
  | (k, v) :: rest => ("\"" ++ escapeJson k ++ "\":" ++ v.toJsonString) :: jsonStringFields rest

end

/-! ## Value formatter (src/engine/formatter.rs) -/

/-- `formatter::format_actual_value`: for the `Count` guard, the element
count of the array (with a `"0"` fallback on a non-array); for every other
guard, the value's compact JSON text. -/
def format_actual_value (guard : String) (actualValue : Value) : String :=
  if guard = "Count" then
    match actualValue.asArray with
    | some items => toString items.length
    | none => "0"
  else
    actualValue.toJsonString

/-! ## Rule model (src/config.rs) -/

/-- `config::AssetMatcher`. -/
inductive AssetMatcher where
  | single (s : String)
  | list (l : List String)
deriving Repr

/-- `config::Severity`. -/
inductive Severity where
  | error
  | warning
deriving Repr, DecidableEq

/-- `config::Validation`: a target path expression, a guard name, and the
untyped guard parameter value. -/
structure Validation where
  target : String
  guard : String
  params : Value
deriving Repr

/-- `config::Rule`. `cond` is the optional `when` precondition. -/
structure Rule where
  id : String
  asset : AssetMatcher
  description : Option String
  severity : Severity
  cond : Option Validation
  validate : Validation
deriving Repr

/-- `engine::Violation`. -/
structure Violation where
  rule_id : String
  file : String
  message : String
  severity : Severity
  actual_value : Option String
deriving Repr, DecidableEq

/-! ## Rule evaluator (src/engine/mod.rs)

`parsePath` abstracts `JsonPath::parse` composed with `query`: `none` is a
ParseError, `some q` the parsed path with `q root` its ordered node list. -/

/-- `check_guard`: string-keyed dispatch to the guard library. Returns the
boolean verdict together with the warning lines printed to stderr: an
unrecognized guard name passes vacuously (fail-open) and warns. -/
def check_guard (compile : String → Option (String → Bool))
    (node : Value) (guard : String) (params : Value) : Bool × List String :=
  if guard = "PatternMatch" then (check_pattern_match compile node params, [])
  else if guard = "AllowedValues" then (check_allowed_values node params, [])
  else if guard = "Exists" then (check_exists node params, [])
  else if guard = "Range" then (check_range node params, [])
  else if guard = "Count" then (check_count node params, [])
  else if guard = "StringLength" then (check_string_length node params, [])
  else (true, ["[Warning] Unknown guard " ++ guard ++ ", the check will be skipped."])

/-- `evaluate_condition`: a precondition holds when its target parses,
matches at least one node, and every matched node passes the guard. -/
def evaluate_condition (compile : String → Option (String → Bool))
    (parsePath : String → Option (Value → List Value))
    (validation : Validation) (root : Value) : Bool :=
  match parsePath validation.target with
  | none => false
  | some query =>
    let nodes := query root
    if nodes.isEmpty then false
    else nodes.all fun node => (check_guard compile node validation.guard validation.params).1

/-- The Violation built for one failing node in `check_rule`. -/
def make_violation (rule : Rule) (filePath : String) (node : Value) : Violation :=
  { rule_id := rule.id
  , file := filePath
  , message := rule.description.getD "Rule violation"
  , severity := rule.severity
  , actual_value := some (format_actual_value rule.validate.guard node) }

/-- The main-check half of `check_rule`: resolve the target (a ParseError
degrades to no Violations, with a stderr warning), then one Violation per
matched node failing the guard, in match order. -/
def validate_check (compile : String → Option (String → Bool))
    (parsePath : String → Option (Value → List Value))
    (rule : Rule) (root : Value) (filePath : String) : List Violation :=
  match parsePath rule.validate.target with
  | none => []
  | some query =>
    ((query root).filter fun node =>
        !(check_guard compile node rule.validate.guard rule.validate.params).1).map
      (make_violation rule filePath)

/-- `check_rule`: skip the rule (no Violations) when a present `when`
precondition does not hold, otherwise run the main check. -/
def check_rule (compile : String → Option (String → Bool))
    (parsePath : String → Option (Value → List Value))
    (rule : Rule) (root : Value) (filePath : String) : List Violation :=
  match rule.cond with
  | some w =>
    if evaluate_condition compile parsePath w root then
      validate_check compile parsePath rule root filePath
    else []
  | none => validate_check compile parsePath rule root filePath

/-! ## Concrete fixtures

A small concrete regex engine and path resolver, and the rules and document
of the end-to-end scenario from the repository's own tests, used to
instantiate the theorems below on closed inputs. -/

/-- A concrete regex engine knowing the one pattern the scenario uses:
`^pl_` matches strings beginning with the three characters `pl_`. -/
def demoCompile : String → Option (String → Bool) := fun p =>
  if p = "^pl_" then some (fun s => s.data.take 3 == ['p', 'l', '_']) else none

/-- A concrete path resolver for the scenario paths. `$.missing` parses but
matches nothing; unknown expressions are parse errors. -/
def demoParse : String → Option (Value → List Value) := fun t =>
  if t = "$.name" then some (fun root => (root.get "name").toList)
  else if t = "$.properties.type" then
    some (fun root => ((root.get "properties").bind (fun p => p.get "type")).toList)
  else if t = "$.missing" then some (fun _ => [])
  else none

/-- The scenario document. -/
def demoDoc : Value :=
  Value.obj
    [ ("properties", Value.obj [("type", Value.str "MappingDataFlow")])
    , ("name", Value.str "wrong_name") ]

/-- The scenario rule: precondition on `$.properties.type`, main
PatternMatch on `$.name`. -/
def demoRule : Rule :=
  { id := "r1"
  , asset := .single "pipeline"
  , description := none
  , severity := .error
  , cond := some
      { target := "$.properties.type"
      , guard := "AllowedValues"
      , params := Value.obj [("values", Value.arr [Value.str "MappingDataFlow"])] }
  , validate :=
      { target := "$.name"
      , guard := "PatternMatch"
      , params := Value.obj [("regex", Value.str "^pl_")] } }

/-- An `Exists` rule whose target matches zero nodes. -/
def demoRuleExists : Rule :=
  { id := "r2"
  , asset := .single "pipeline"
  , description := none
  , severity := .error
  , cond := none
  , validate := { target := "$.missing", guard := "Exists", params := Value.obj [] } }

/-- A rule whose main guard name is not one of the six known guards. -/
def demoRuleFoo : Rule :=
  { id := "r3"
  , asset := .single "pipeline"
  , description := none
  , severity := .error
  , cond := none
  , validate := { target := "$.name", guard := "Foo", params := Value.obj [] } }

/-- StringLength parameters min=3, max=5. -/
def demoSLParams : Value := Value.obj [("min", Value.num 3), ("max", Value.num 5)]

/-- AllowedValues parameters values=[HTTP], mode=Deny. -/
def demoDenyParams : Value :=
  Value.obj [("values", Value.arr [Value.str "HTTP"]), ("mode", Value.str "Deny")]

/-- AllowedValues parameters values=[Prod], case_sensitive=false. -/
def demoCIParams : Value :=
  Value.obj [("values", Value.arr [Value.str "Prod"]), ("case_sensitive", Value.bool false)]

/-- The guard names `check_guard` dispatches on. -/
def knownGuards : List String :=
  ["PatternMatch", "AllowedValues", "Exists", "Range", "Count", "StringLength"]

/-- The comparison `check_allowed_values` applies between a list entry and
the value: exact when case-sensitive, ASCII-case-insensitive otherwise. -/
def matchesUnder (caseSensitive : Bool) (t s : String) : Bool :=
  if caseSensitive then t == s else eqIgnoreAsciiCase t s

/-- `asStr` determines the value: it is `some t` exactly on the string `t`. -/
theorem Value.asStr_eq_some {v : Value} {t : String} :
    v.asStr = some t ↔ v = Value.str t := by
  cases v <;> simp [Value.asStr]

/-! ## Claim theorems -/

/-- C2 (counterexample): the claim's Exists carve-out fails on the code. A
rule whose guard is `Exists` and whose main-check target parses but matches
zero nodes still produces zero Violations: absence of matches is not a
failure even for `Exists`. -/
theorem c2_exists_zero_nodes_counterexample :
    demoRuleExists.validate.guard = "Exists"
    ∧ (demoParse demoRuleExists.validate.target).isSome = true
    ∧ (demoParse demoRuleExists.validate.target).map (fun q => q demoDoc) = some []
    ∧ check_rule demoCompile demoParse demoRuleExists demoDoc "pipeline/test.json" = [] :=
  ⟨rfl, rfl, rfl, rfl⟩

/-- C2 (amended): for every rule whose main-check target path parses and
resolves to zero nodes in the document, `check_rule` produces zero
Violations, regardless of the rule's guard — including `Exists`. -/
theorem c2_zero_nodes_no_violations
    (compile : String → Option (String → Bool))
    (parsePath : String → Option (Value → List Value))
    (rule : Rule) (root : Value) (fp : String) (q : Value → List Value)
    (hq : parsePath rule.validate.target = some q) (hempty : q root = []) :
    check_rule compile parsePath rule root fp = [] := by
  have hv : validate_check compile parsePath rule root fp = [] := by
    simp [validate_check, hq, hempty]
  cases hc : rule.cond with
  | none => simp [check_rule, hc, hv]
  | some w => simp [check_rule, hc, hv]

/-- C2 witness: the amended theorem applied to the concrete `Exists` rule
with an empty match set. -/
theorem c2_zero_nodes_no_violations_witness :
    check_rule demoCompile demoParse demoRuleExists demoDoc "pipeline/test.json" = [] :=
  c2_zero_nodes_no_violations demoCompile demoParse demoRuleExists demoDoc
    "pipeline/test.json" (fun _ => []) rfl rfl

/-- C3: every guard except `Exists` rejects a value of the wrong JSON type,
for all parameter values: a non-string into PatternMatch, AllowedValues or
StringLength, a non-number into Range, and a non-array into Count all
return false. -/
theorem c3_type_mismatch_false
    (compile : String → Option (String → Bool)) (node params : Value) :
    (node.asStr = none →
      check_pattern_match compile node params = false
      ∧ check_allowed_values node params = false
      ∧ check_string_length node params = false)
    ∧ (node.asF64 = none → check_range node params = false)
    ∧ (node.asArray = none → check_count node params = false) := by
  refine ⟨fun h => ⟨?_, ?_, ?_⟩, fun h => ?_, fun h => ?_⟩
  · unfold check_pattern_match
    rw [h]
  · unfold check_allowed_values
    rw [h]
  · unfold check_string_length
    rw [h]
  · unfold check_range
    rw [h]
  · unfold check_count
    rw [h]

/-- C3 witness: a JSON null is a type mismatch for all five typed guards. -/
theorem c3_type_mismatch_false_witness :
    check_pattern_match demoCompile Value.null Value.null = false
    ∧ check_allowed_values Value.null Value.null = false
    ∧ check_string_length Value.null Value.null = false
    ∧ check_range Value.null Value.null = false
    ∧ check_count Value.null Value.null = false :=
  ⟨((c3_type_mismatch_false demoCompile Value.null Value.null).1 rfl).1,
   ((c3_type_mismatch_false demoCompile Value.null Value.null).1 rfl).2.1,
   ((c3_type_mismatch_false demoCompile Value.null Value.null).1 rfl).2.2,
   (c3_type_mismatch_false demoCompile Value.null Value.null).2.1 rfl,
   (c3_type_mismatch_false demoCompile Value.null Value.null).2.2 rfl⟩

/-- C4 (counterexample): malformed guard parameters are not uniformly
fail-closed. `Range` invoked on the number 5 with a non-numeric `min`
returns true: the malformed bound is treated as absent (unconstrained),
not as a failure. -/
theorem c4_malformed_params_counterexample :
    check_range (Value.num 5) (Value.obj [("min", Value.str "abc")]) = true := rfl

/-- C4 (amended): PatternMatch with a missing or uncompilable regex returns
false, and AllowedValues with a missing or non-array values list returns
false; but in Range, Count and StringLength a `min` or `max` field that is
missing or not extractable as a number of the expected kind is treated as
absent (unconstrained): with both bounds missing or malformed the guard
returns true exactly when the value has the guard's expected type. -/
theorem c4_param_handling
    (compile : String → Option (String → Bool)) (node params : Value) :
    ((params.get "regex").bind Value.asStr = none →
      check_pattern_match compile node params = false)
    ∧ (∀ pat, (params.get "regex").bind Value.asStr = some pat → compile pat = none →
        check_pattern_match compile node params = false)
    ∧ ((params.get "values").bind Value.asArray = none →
        check_allowed_values node params = false)
    ∧ ((params.get "min").bind Value.asF64 = none →
       (params.get "max").bind Value.asF64 = none →
        check_range node params = node.asF64.isSome)
    ∧ ((params.get "min").bind Value.asU64 = none →
       (params.get "max").bind Value.asU64 = none →
        check_count node params = node.asArray.isSome
        ∧ check_string_length node params = node.asStr.isSome) := by
  refine ⟨fun h => ?_, fun pat hp hc => ?_, fun h => ?_,
    fun hmin hmax => ?_, fun hmin hmax => ⟨?_, ?_⟩⟩
  · unfold check_pattern_match
    rw [h]
    cases node.asStr <;> rfl
  · unfold check_pattern_match
    rw [hp]
    cases node.asStr with
    | none => rfl
    | some text => simp [hc]
  · unfold check_allowed_values
    rw [h]
    cases node.asStr <;> rfl
  · unfold check_range
    rw [hmin, hmax]
    cases node.asF64 <;> rfl
  · unfold check_count
    rw [hmin, hmax]
    cases node.asArray <;> rfl
  · unfold check_string_length
    rw [hmin, hmax]
    cases node.asStr <;> rfl

/-- C4 witness: on the number 5 with params containing only a non-numeric
`min` and no regex, PatternMatch fails closed while Range passes open. -/
theorem c4_param_handling_witness :
    check_pattern_match demoCompile (Value.num 5) (Value.obj [("min", Value.str "abc")]) = false
    ∧ check_range (Value.num 5) (Value.obj [("min", Value.str "abc")]) = true := by
  have h := c4_param_handling demoCompile (Value.num 5) (Value.obj [("min", Value.str "abc")])
  refine ⟨h.1 rfl, ?_⟩
  rw [h.2.2.2.1 rfl rfl]
  rfl

/-- C9: rule evaluation is deterministic and stateless. `check_rule` is a
pure function of the rule, the document and the artifact path: two
invocations on equal inputs (under the same resolver and regex engine)
return equal Violation lists. -/
theorem c9_deterministic
    (compile : String → Option (String → Bool))
    (parsePath : String → Option (Value → List Value))
    (r1 r2 : Rule) (d1 d2 : Value) (p1 p2 : String)
    (hr : r1 = r2) (hd : d1 = d2) (hp : p1 = p2) :
    check_rule compile parsePath r1 d1 p1 = check_rule compile parsePath r2 d2 p2 := by
  subst hr
  subst hd
  subst hp
  rfl

/-- C9 witness: the determinism theorem applied to the concrete scenario. -/
theorem c9_deterministic_witness :
    check_rule demoCompile demoParse demoRule demoDoc "pipeline/test.json" =
      check_rule demoCompile demoParse demoRule demoDoc "pipeline/test.json" :=
  c9_deterministic demoCompile demoParse demoRule demoRule demoDoc demoDoc
    "pipeline/test.json" "pipeline/test.json" rfl rfl rfl

/-- C1: precondition gating. For a rule with a `when` precondition: a
ParseError on the precondition target, or an empty match set, makes
`check_rule` return zero Violations; on a non-empty match set the
precondition holds iff every matched node passes the guard (a conjunction
over all matches); the main check runs exactly when the precondition
holds. -/
theorem c1_precondition_gating
    (compile : String → Option (String → Bool))
    (parsePath : String → Option (Value → List Value))
    (rule : Rule) (w : Validation) (root : Value) (fp : String)
    (hw : rule.cond = some w) :
    (parsePath w.target = none → check_rule compile parsePath rule root fp = [])
    ∧ (∀ q, parsePath w.target = some q → q root = [] →
        check_rule compile parsePath rule root fp = [])
    ∧ (∀ q, parsePath w.target = some q → q root ≠ [] →
        (evaluate_condition compile parsePath w root = true ↔
          ∀ n ∈ q root, (check_guard compile n w.guard w.params).1 = true))
    ∧ (evaluate_condition compile parsePath w root = false →
        check_rule compile parsePath rule root fp = [])
    ∧ (evaluate_condition compile parsePath w root = true →
        check_rule compile parsePath rule root fp =
          validate_check compile parsePath rule root fp) := by
  refine ⟨fun hp => ?_, fun q hq he => ?_, fun q hq hne => ?_, fun hc => ?_, fun hc => ?_⟩
  · have hc : evaluate_condition compile parsePath w root = false := by
      simp [evaluate_condition, hp]
    simp [check_rule, hw, hc]
  · have hc : evaluate_condition compile parsePath w root = false := by
      simp [evaluate_condition, hq, he]
    simp [check_rule, hw, hc]
  · unfold evaluate_condition
    rw [hq]
    simp only [List.isEmpty_eq_true, hne, if_false, List.all_eq_true]
  · simp [check_rule, hw, hc]
  · simp [check_rule, hw, hc]

/-- C1 witness: on the scenario document the precondition target matches
the non-empty singleton, every match passes AllowedValues, and the rule
proceeds to the main check. -/
theorem c1_precondition_gating_witness :
    check_rule demoCompile demoParse demoRule demoDoc "pipeline/test.json" =
      validate_check demoCompile demoParse demoRule demoDoc "pipeline/test.json" :=
  (c1_precondition_gating demoCompile demoParse demoRule
    { target := "$.properties.type"
    , guard := "AllowedValues"
    , params := Value.obj [("values", Value.arr [Value.str "MappingDataFlow"])] }
    demoDoc "pipeline/test.json" rfl).2.2.2.2 (by rfl)

/-- C5: an unrecognized guard name is fail-open. Guard dispatch returns
true for every node and parameter value, a warning line is emitted, and a
rule whose main guard name is unknown produces zero Violations. -/
theorem c5_unknown_guard_fail_open
    (compile : String → Option (String → Bool))
    (parsePath : String → Option (Value → List Value))
    (guard : String) (node params : Value)
    (h : guard ∉ knownGuards) :
    (check_guard compile node guard params).1 = true
    ∧ (check_guard compile node guard params).2 =
        ["[Warning] Unknown guard " ++ guard ++ ", the check will be skipped."]
    ∧ (∀ rule root fp, rule.validate.guard = guard →
        check_rule compile parsePath rule root fp = []) := by
  simp only [knownGuards, List.mem_cons, List.not_mem_nil, or_false, not_or] at h
  obtain ⟨h1, h2, h3, h4, h5, h6⟩ := h
  have hg : ∀ n p, check_guard compile n guard p =
      (true, ["[Warning] Unknown guard " ++ guard ++ ", the check will be skipped."]) := by
    intro n p
    simp [check_guard, h1, h2, h3, h4, h5, h6]
  refine ⟨by rw [hg], by rw [hg], fun rule root fp hrg => ?_⟩
  have hv : validate_check compile parsePath rule root fp = [] := by
    unfold validate_check
    cases hp : parsePath rule.validate.target with
    | none => rfl
    | some q => simp [hrg, hg]
  cases hc : rule.cond with
  | none => simp [check_rule, hc, hv]
  | some w => simp [check_rule, hc, hv]

/-- C5 witness: the unknown guard name `Foo` passes vacuously with a
warning and its rule yields no Violations on the scenario document. -/
theorem c5_unknown_guard_fail_open_witness :
    (check_guard demoCompile Value.null "Foo" Value.null).1 = true
    ∧ check_rule demoCompile demoParse demoRuleFoo demoDoc "pipeline/test.json" = [] := by
  have h := c5_unknown_guard_fail_open demoCompile demoParse "Foo" Value.null Value.null
    (by decide)
  exact ⟨h.1, h.2.2 demoRuleFoo demoDoc "pipeline/test.json" rfl⟩

/-- C6: StringLength counts Unicode scalar values. For every string the
guard compares the number of characters (codepoints, `s.data.length`)
inclusively against each supplied bound, an absent bound being
unconstrained; a non-string value is false. With min=3 and max=5 the
3-codepoint string passes and the 6-codepoint string fails, although their
UTF-8 byte counts (6 and 12) would put both outside the bounds. -/
theorem c6_string_length_codepoints (params : Value) (s : String) (v : Value) :
    (check_string_length (Value.str s) params = true ↔
      (∀ m, (params.get "min").bind Value.asU64 = some m → m ≤ s.length)
      ∧ (∀ m, (params.get "max").bind Value.asU64 = some m → s.length ≤ m))
    ∧ s.length = s.data.length
    ∧ (v.asStr = none → check_string_length v params = false)
    ∧ check_string_length (Value.str "áéí") demoSLParams = true
    ∧ check_string_length (Value.str "áéíóúÁ") demoSLParams = false
    ∧ "áéí".utf8ByteSize = 6 ∧ "áéíóúÁ".utf8ByteSize = 12 := by
  refine ⟨?_, rfl, fun hv => ?_, by decide, by decide, by decide, by decide⟩
  · show (optNoneOr ((params.get "min").bind Value.asU64) (fun m => decide (m ≤ s.length)) &&
        optNoneOr ((params.get "max").bind Value.asU64) (fun m => decide (s.length ≤ m)))
          = true ↔ _
    cases hmin : (params.get "min").bind Value.asU64 <;>
      cases hmax : (params.get "max").bind Value.asU64 <;>
        simp [optNoneOr]
  · unfold check_string_length
    rw [hv]

/-- C6 witness: a non-string (the number 5) fails StringLength under the
min=3, max=5 parameters. -/
theorem c6_string_length_codepoints_witness :
    check_string_length (Value.num 5) demoSLParams = false :=
  (c6_string_length_codepoints demoSLParams "x" (Value.num 5)).2.2.1 rfl

/-- The body of `check_allowed_values` on a string value once the values
list has been extracted: membership under the configured comparison,
inverted for Deny mode. -/
theorem check_allowed_values_str (params : Value) (s : String) (vals : List Value)
    (hvals : (params.get "values").bind Value.asArray = some vals) :
    check_allowed_values (Value.str s) params =
      (if ((params.get "mode").bind Value.asStr).getD "Allow" == "Deny"
       then !(vals.any fun x =>
          match x.asStr with
          | some vStr =>
            if ((params.get "case_sensitive").bind Value.asBool).getD true
            then vStr == s else eqIgnoreAsciiCase vStr s
          | none => false)
       else (vals.any fun x =>
          match x.asStr with
          | some vStr =>
            if ((params.get "case_sensitive").bind Value.asBool).getD true
            then vStr == s else eqIgnoreAsciiCase vStr s
          | none => false)) := by
  unfold check_allowed_values
  rw [hvals]
  rfl

/-- The `any` in `check_allowed_values` is membership of the value among
the string entries of the list, under the configured comparison. -/
theorem allowed_values_any_iff (vals : List Value) (s : String) (cs : Bool) :
    (vals.any fun x =>
        match x.asStr with
        | some vStr => if cs then vStr == s else eqIgnoreAsciiCase vStr s
        | none => false) = true ↔
      ∃ t, Value.str t ∈ vals ∧ matchesUnder cs t s = true := by
  rw [List.any_eq_true]
  constructor
  · rintro ⟨x, hx, hfx⟩
    cases x <;> simp [Value.asStr] at hfx
    case str t => exact ⟨t, hx, by simpa [matchesUnder] using hfx⟩
  · rintro ⟨t, ht, hm⟩
    exact ⟨Value.str t, ht, by simpa [Value.asStr, matchesUnder] using hm⟩

/-- C7: AllowedValues is membership of the string value in the values
list, compared exactly when case-sensitive and ASCII-case-insensitively
otherwise, returned as-is for Allow mode and negated for Deny mode; a
non-string value is false regardless of mode. Deny over [HTTP] passes
HTTPS and fails HTTP; case-insensitive [Prod] passes prod. -/
theorem c7_allowed_values_membership (params : Value) (s : String) (vals : List Value)
    (v : Value)
    (hvals : (params.get "values").bind Value.asArray = some vals) :
    (((params.get "mode").bind Value.asStr).getD "Allow" ≠ "Deny" →
      (check_allowed_values (Value.str s) params = true ↔
        ∃ t, Value.str t ∈ vals ∧
          matchesUnder (((params.get "case_sensitive").bind Value.asBool).getD true) t s
            = true))
    ∧ (((params.get "mode").bind Value.asStr).getD "Allow" = "Deny" →
      (check_allowed_values (Value.str s) params = true ↔
        ¬ ∃ t, Value.str t ∈ vals ∧
          matchesUnder (((params.get "case_sensitive").bind Value.asBool).getD true) t s
            = true))
    ∧ (v.asStr = none → check_allowed_values v params = false)
    ∧ check_allowed_values (Value.str "HTTPS") demoDenyParams = true
    ∧ check_allowed_values (Value.str "HTTP") demoDenyParams = false
    ∧ check_allowed_values (Value.str "prod") demoCIParams = true := by
  refine ⟨fun hmode => ?_, fun hmode => ?_, fun hv => ?_, by decide, by decide, by decide⟩
  · rw [check_allowed_values_str params s vals hvals]
    rw [if_neg (by simpa using hmode)]
    exact allowed_values_any_iff vals s _
  · rw [check_allowed_values_str params s vals hvals]
    rw [if_pos (by simpa using hmode)]
    rw [Bool.not_eq_eq_eq_not, Bool.not_true, ← Bool.not_eq_true]
    exact not_congr (allowed_values_any_iff vals s _)
  · unfold check_allowed_values
    rw [hv]

/-- C7 witness: instantiated on the Deny-mode fixture. -/
theorem c7_allowed_values_membership_witness :
    check_allowed_values Value.null demoDenyParams = false
    ∧ check_allowed_values (Value.str "HTTPS") demoDenyParams = true := by
  have h := c7_allowed_values_membership demoDenyParams "HTTPS" [Value.str "HTTP"]
    Value.null rfl
  exact ⟨h.2.2.1 rfl, h.2.2.2.1⟩

/-- C8: the value formatter. For the `Count` guard it renders the element
count of the array, not its contents; for every other guard it renders the
value's compact JSON text, surrounding quotes included for strings. -/
theorem c8_format_actual_value (guard : String) (v : Value) (items : List Value)
    (s : String) :
    format_actual_value "Count" (Value.arr items) = toString items.length
    ∧ (guard ≠ "Count" → format_actual_value guard v = v.toJsonString)
    ∧ (guard ≠ "Count" →
        format_actual_value guard (Value.str s) = "\"" ++ escapeJson s ++ "\"")
    ∧ format_actual_value "PatternMatch" (Value.str "a_string") = "\"a_string\""
    ∧ format_actual_value "Count" (Value.arr [Value.null, Value.null, Value.null]) = "3"
    ∧ format_actual_value "Exists" (Value.obj [("key", Value.str "value")]) =
        "\x7b\"key\":\"value\"\x7d" := by
  refine ⟨rfl, fun h => ?_, fun h => ?_, rfl, rfl, rfl⟩
  · unfold format_actual_value
    rw [if_neg h]
  · unfold format_actual_value
    rw [if_neg h]
    rfl

/-- C8 witness: a non-Count guard renders the JSON text of the value. -/
theorem c8_format_actual_value_witness :
    format_actual_value "Exists" (Value.num 123) = "123" :=
  ((c8_format_actual_value "Exists" (Value.num 123) [] "x").2.1 (by decide)).trans rfl

/-- C10: every Violation built by `check_rule` carries a present
actual_value: the formatter output for the failing node is always stored
as `some`. -/
theorem c10_actual_value_present
    (compile : String → Option (String → Bool))
    (parsePath : String → Option (Value → List Value))
    (rule : Rule) (root : Value) (fp : String) (v : Violation)
    (hv : v ∈ check_rule compile parsePath rule root fp) :
    v.actual_value.isSome = true := by
  have hvc : ∀ u : Violation, u ∈ validate_check compile parsePath rule root fp →
      u.actual_value.isSome = true := by
    intro u hu
    unfold validate_check at hu
    cases hp : parsePath rule.validate.target with
    | none => rw [hp] at hu; simp at hu
    | some q =>
      rw [hp] at hu
      simp only [List.mem_map] at hu
      obtain ⟨node, _, rfl⟩ := hu
      rfl
  unfold check_rule at hv
  split at hv
  · split at hv
    · exact hvc v hv
    · simp at hv
  · exact hvc v hv

/-- C10 witness: the one Violation of the scenario carries
actual_value some "wrong_name" (quoted). -/
theorem c10_actual_value_present_witness :
    (make_violation demoRule "pipeline/test.json" (Value.str "wrong_name")).actual_value.isSome
      = true :=
  c10_actual_value_present demoCompile demoParse demoRule demoDoc "pipeline/test.json"
    (make_violation demoRule "pipeline/test.json" (Value.str "wrong_name"))
    (by decide)

end AdfGuardian
